import Mathlib

/-!
Verification of the uv resolver bridge and the export command of pdm.

The definitions below are a shallow embedding of two Python modules:

* `src/pdm/resolver/uv.py` — the `UvResolver` class: its `__post_init__`
  normalisation, the `_build_lock_command` argument builder, the `GIT_URL`
  regular expression and the `_parse_uv_lock` lock-document parser.
* `src/pdm/cli/commands/export.py` — `Command.handle`: the precondition
  checks, the candidate sort, and the extras/marker filtering loop.

Collaborator classes that live outside those two files (the requirement
model, `Candidate.copy_with`, `normalize_name`, …) are modelled from the
specification; each such definition says so in its doc comment.
-/

namespace PdmUv

/-- Python truthiness of an optional string: `None` and the empty string are
falsy, every other string is truthy. -/
def pyTruthy : Option String → Bool
  | none => false
  | some s => !s.isEmpty

/-- Modelled from the spec: `normalize_name` from `pdm.utils` produces the
"normalized lowercase name" used as a package key. -/
def normalizeName (s : String) : String := String.mk (s.toList.map Char.toLower)

/-- Modelled from the spec: the lock strategy flag named in the export
command's error message, `inherit_metadata`. -/
def FLAG_INHERIT_METADATA : String := "inherit_metadata"

/-- Modelled from the spec: the "lowest direct versions" resolution strategy
flag, `direct_minimal_versions`. -/
def FLAG_DIRECT_MINIMAL_VERSIONS : String := "direct_minimal_versions"

/-- Modelled from the spec: the polymorphic requirement record.  One flat
structure stands for the `Named`/`File`/`VCS` variants: exactly the fields the
spec lists (package name, extras, version specifier, marker, URL, local path,
editable flag, VCS ref and resolved revision). -/
structure Requirement where
  name : Option String := none
  extras : List String := []
  specifier : Option String := none
  marker : Option String := none
  url : Option String := none
  path : Option String := none
  editable : Bool := false
  vcs : Bool := false
  ref : Option String := none
  revision : Option String := none
deriving Repr, DecidableEq

/-- Modelled from the spec: a requirement's package key is the normalized
lowercase name, or `None` when the requirement has no name. -/
def Requirement.key (r : Requirement) : Option String := r.name.map normalizeName

/-- Modelled from the spec: the textual interpolation of `req.key` inside the
pin line built by the parser (a Python f-string renders `None` literally). -/
def Requirement.keyStr (r : Requirement) : String :=
  match r.key with
  | some k => k
  | none => "None"

/-- Artifact hash record: source URL, filename and content hash
(`FileHash` in `pdm._types`). -/
structure FileHash where
  url : String
  file : String
  hash : String
deriving Repr, DecidableEq

/-- Candidate model: a requirement bound to a resolved name and version,
carrying an ordered list of artifact hash records
(`pdm.models.candidates.Candidate`). -/
structure Candidate where
  req : Requirement
  name : String
  version : String
  hashes : List FileHash := []
deriving Repr, DecidableEq

/-- Modelled from the spec: `Candidate.copy_with` returns a copy of the
candidate with the requirement replaced and everything else kept. -/
def Candidate.copyWith (c : Candidate) (r : Requirement) : Candidate :=
  { c with req := r }

/-- Package entry: a candidate plus its dependency requirement lines and a
summary (`pdm.models.repositories.Package`). -/
structure Package where
  candidate : Candidate
  dependencies : List String
  summary : String
deriving Repr, DecidableEq

/-- Resolution: the ordered package entries plus the requested groups
(`pdm.resolver.base.Resolution`). -/
structure Resolution where
  packages : List Package
  requestedGroups : List String
deriving Repr, DecidableEq

/-! ### The lock document model

A `uv.lock` document is a list of package records; each record carries a
name, a version, a source descriptor (a table whose populated key selects the
variant), wheel/sdist artifact entries, dependency records and an
optional-dependencies mapping. -/

/-- Source descriptor of a lock record: at most one of the keys is populated;
`virtual` marks the project's own virtual package. -/
structure UvSource where
  url : Option String := none
  git : Option String := none
  editable : Option String := none
  path : Option String := none
  virtual : Option String := none
deriving Repr, DecidableEq

/-- Wheel or sdist entry of a lock record: a URL and an optional hash. -/
structure UvArtifact where
  url : String
  hash : Option String := none
deriving Repr, DecidableEq

/-- Dependency record inside a lock record, as consumed by
`make_requirement`. -/
structure UvDep where
  name : String
  version : Option String := none
  marker : Option String := none
  extra : List String := []
deriving Repr, DecidableEq

/-- One package record of the lock document. -/
structure UvPackage where
  name : String
  version : String
  source : UvSource := {}
  wheels : List UvArtifact := []
  sdist : Option UvArtifact := none
  dependencies : List UvDep := []
  optionalDependencies : List (String × List UvDep) := []
deriving Repr, DecidableEq

end PdmUv

namespace PdmUv

/-! ### The `GIT_URL` regular expression

`GIT_URL = re.compile(r"(?P<repo>[^:/]+://[^\?#]+)(?:\?rev=(?P<ref>[^#]+?))?(?:#(?P<revision>[a-f0-9]+))$")`

applied with `re.match` (anchored at the start; `$` matches at the end of the
string or just before one trailing newline).  The pattern is deterministic:
`[^:/]+` must stop at the first `:` or `/`, `[^?#]+` at the first `?` or `#`,
the lazy ref group at the first `#`, so a direct functional translation is
exact. -/

/-- Character class `[a-f0-9]` of the revision group. -/
def isHexDigitLower (c : Char) : Bool :=
  ('a' ≤ c && c ≤ 'f') || ('0' ≤ c && c ≤ '9')

/-- Result of a successful `GIT_URL` match: the three named groups. -/
structure GitMatch where
  repo : String
  ref : Option String
  revision : String
deriving Repr, DecidableEq

/-- Final step of the match: the revision group `[a-f0-9]+` followed by `$`
(which also accepts a single trailing newline). -/
def matchRevision (repo : List Char) (ref : Option (List Char)) (revCs : List Char) :
    Option GitMatch :=
  let revCs := if revCs.getLast? = some '\n' then revCs.dropLast else revCs
  if !revCs.isEmpty && revCs.all isHexDigitLower then
    some ⟨String.mk repo, ref.map String.mk, String.mk revCs⟩
  else
    none

/-- Functional translation of `GIT_URL.match` on a string. -/
def matchGitUrl (s : String) : Option GitMatch :=
  let cs := s.toList
  let head := cs.takeWhile fun c => c != ':' && c != '/'
  if head.isEmpty then none
  else
    match cs.dropWhile (fun c => c != ':' && c != '/') with
    | ':' :: '/' :: '/' :: rest =>
      let body := rest.takeWhile fun c => c != '?' && c != '#'
      if body.isEmpty then none
      else
        let repo := head ++ ':' :: '/' :: '/' :: body
        match rest.dropWhile (fun c => c != '?' && c != '#') with
        | '?' :: afterQ =>
          if afterQ.take 4 = ['r', 'e', 'v', '='] then
            let afterEq := afterQ.drop 4
            let refCs := afterEq.takeWhile fun c => c != '#'
            if refCs.isEmpty then none
            else
              match afterEq.dropWhile (fun c => c != '#') with
              | '#' :: revCs => matchRevision repo (some refCs) revCs
              | _ => none
          else none
        | '#' :: revCs => matchRevision repo none revCs
        | _ => none
    | _ => none

/-- Modelled from the spec: `VcsRequirement.create(url=..., name=...)` stores
the VCS metadata (URL, ref) split out of a combined `URL@ref` string; the ref,
when present, follows the last `@` of the combined string. -/
def vcsRequirementCreate (url : String) (name : String) : Requirement :=
  let cs := url.toList
  if cs.contains '@' then
    let urlPart := (cs.reverse.dropWhile (fun c => c != '@')).drop 1 |>.reverse
    let refPart := cs.reverse.takeWhile (fun c => c != '@') |>.reverse
    { name := some name, url := some (String.mk urlPart), ref := some (String.mk refPart),
      vcs := true }
  else
    { name := some name, url := some url, vcs := true }

/-- Translation of the git branch of `_parse_uv_lock` (lines 151–159): match
`GIT_URL`, fail on no match, rebuild the combined URL with the `git+` marker
and the `@ref` suffix, create the VCS requirement and attach the resolved
revision. -/
def parseGitSource (git : String) (name : String) : Except String Requirement :=
  match matchGitUrl git with
  | none => .error ("Invalid git URL: " ++ git)
  | some m =>
    let url := "git+" ++ m.repo
    let url := match m.ref with
      | some r => url ++ "@" ++ r
      | none => url
    let req := vcsRequirementCreate url name
    .ok { req with revision := some m.revision }

end PdmUv

namespace PdmUv

/-! ### The lock output parser (`_parse_uv_lock`) -/

/-- Modelled from the spec: the canonical single-line textual form of a
requirement — name, bracketed extras, version specifier, then the
environment-marker suffix. -/
def Requirement.asLine (r : Requirement) : String :=
  let base := r.name.getD ""
  let base := if r.extras.isEmpty then base
    else base ++ "[" ++ String.intercalate "," r.extras ++ "]"
  let base := base ++ r.specifier.getD ""
  match r.marker with
  | some m => base ++ "; " ++ m
  | none => base

/-- Translation of the inner `make_requirement`: build a named requirement
from a dependency record (exact pin when a version is present, marker and
extras copied over) and render its canonical line. -/
def makeRequirement (dep : UvDep) : String :=
  let req : Requirement := { name := some dep.name }
  let req := match dep.version with
    | some v => { req with specifier := some ("==" ++ v) }
    | none => req
  let req := match dep.marker with
    | some m => { req with marker := some m }
    | none => req
  let req := if dep.extra.isEmpty then req else { req with extras := dep.extra }
  req.asLine

/-- Modelled from the spec: `Link(url).filename`, the filename component of an
artifact URL (the segment after the last slash). -/
def linkFilename (url : String) : String :=
  String.mk (url.toList.reverse.takeWhile (fun c => c != '/') |>.reverse)

/-- Translation of the inner `make_hash`: trust the recorded hash when the
lock document provides one, otherwise fall back to the hash cache; a failed
cache lookup is fatal. -/
def makeHash (cache : String → Option String) (item : UvArtifact) :
    Except String FileHash :=
  match item.hash with
  | some h => .ok ⟨item.url, linkFilename item.url, h⟩
  | none =>
    match cache item.url with
    | some h => .ok ⟨item.url, linkFilename item.url, h⟩
    | none => .error ("Unable to get hash for " ++ item.url)

/-- Translation of the requirement-derivation chain of `_parse_uv_lock`
(lines 148–165): direct URL, then git, then editable, then local path, then a
named requirement pinned to the exact resolved version. -/
def deriveRequirement (pkg : UvPackage) : Except String Requirement :=
  if pyTruthy pkg.source.url then
    .ok { name := some pkg.name, url := pkg.source.url }
  else if pyTruthy pkg.source.git then
    parseGitSource (pkg.source.git.getD "") pkg.name
  else if pyTruthy pkg.source.editable then
    .ok { name := some pkg.name, path := pkg.source.editable, editable := true }
  else if pyTruthy pkg.source.path then
    .ok { name := some pkg.name, path := pkg.source.path }
  else
    .ok { name := some pkg.name, specifier := some ("==" ++ pkg.version) }

/-- Translation of the per-record body of `_parse_uv_lock` (lines 148–179):
derive the requirement, build the candidate and its hash records, emit the
base entry, then one synthetic entry per optional-dependency group, each
seeded with the exact pin of the base package. -/
def parsePackage (cache : String → Option String) (pkg : UvPackage) :
    Except String (List Package) := do
  let req ← deriveRequirement pkg
  let artifacts := pkg.wheels ++ (match pkg.sdist with
    | some sdist => [sdist]
    | none => [])
  let hashes ← artifacts.mapM (makeHash cache)
  let candidate : Candidate := { req := req, name := pkg.name, version := pkg.version,
                                 hashes := hashes }
  let entry : Package := ⟨candidate, pkg.dependencies.map makeRequirement, ""⟩
  let extraEntries := pkg.optionalDependencies.map fun gd =>
    (⟨candidate.copyWith { req with extras := [gd.1] },
      (req.keyStr ++ "==" ++ candidate.version) :: gd.2.map makeRequirement,
      ""⟩ : Package)
  .ok (entry :: extraEntries)

/-- Translation of the self-package skip test of `_parse_uv_lock`
(lines 141–147): the record is skipped when the project has a name, the
record's name equals the normalized project name, and either self-inclusion
was not requested or the record's source is virtual. -/
def skipRecord (projectName : Option String) (keepSelf : Bool) (pkg : UvPackage) : Bool :=
  pyTruthy projectName
    && pkg.name == normalizeName (projectName.getD "")
    && (!keepSelf || pyTruthy pkg.source.virtual)

/-- Translation of the record loop of `_parse_uv_lock`: skip self records,
parse the rest in order, abort the whole parse on the first error. -/
def parsePackages (projectName : Option String) (keepSelf : Bool)
    (cache : String → Option String) : List UvPackage → Except String (List Package)
  | [] => .ok []
  | pkg :: rest =>
    if skipRecord projectName keepSelf pkg then
      parsePackages projectName keepSelf cache rest
    else do
      let entries ← parsePackage cache pkg
      let more ← parsePackages projectName keepSelf cache rest
      .ok (entries ++ more)

/-- Translation of `_parse_uv_lock`: parse every package record of the lock
document and pair the entries with the requested groups. -/
def parseUvLock (projectName : Option String) (keepSelf : Bool)
    (cache : String → Option String) (packages : List UvPackage)
    (requestedGroups : List String) : Except String Resolution := do
  let entries ← parsePackages projectName keepSelf cache packages
  .ok ⟨entries, requestedGroups⟩

/-! ### `UvResolver.__post_init__` -/

/-- Translation of the strategy normalisation in `UvResolver.__post_init__`
(lines 38–45): an update strategy other than `reuse`/`all` falls back to
`reuse`, and the `inherit_metadata` strategy flag is discarded.  Strategy
sets are modelled as duplicate-free lists; `set.discard` removes every
occurrence. -/
def postInit (updateStrategy : String) (strategies : List String) :
    String × List String :=
  let us := if updateStrategy = "reuse" ∨ updateStrategy = "all" then updateStrategy
    else "reuse"
  let st := if FLAG_INHERIT_METADATA ∈ strategies then
      strategies.filter (· ≠ FLAG_INHERIT_METADATA)
    else strategies
  (us, st)

end PdmUv

namespace PdmUv

/-! ### `UvResolver._build_lock_command`

The configuration the builder reads (project sources, settings, state, the
computed environment) is gathered into one record; the builder itself is a
direct translation of lines 57–111, each `append`/`extend` becoming one
concatenated segment in the same order.  `HiddenText` arguments are modelled
by their string value. -/

/-- One configured package source: its URL (with credentials) and its type
(`find_links` or an index). -/
structure UvSourceConfig where
  urlWithCredentials : String
  sourceType : String
deriving Repr, DecidableEq

/-- Project configuration consumed by `_build_lock_command`. -/
structure LockConfig where
  uvCmd : List String
  interpreter : String
  verbosity : Int
  enableCache : Bool
  sources : List UvSourceConfig
  respectSourceOrder : Bool
  updateStrategy : String
  trackedNames : List String
  allowPrereleases : Bool
  noBinary : List String
  onlyBinary : List String
  buildIsolation : Bool
  configSettings : List (String × String)
  strategies : List String
  excludeNewer : Option String
deriving Repr, DecidableEq

/-- Translation of the source loop (lines 68–77): `find_links` sources get
their own flag, the first index source becomes the primary index, every later
index source a secondary one. -/
def sourceArgs : List UvSourceConfig → Bool → List String
  | [], _ => []
  | s :: rest, firstIndex =>
    if s.sourceType = "find_links" then
      "--find-links" :: s.urlWithCredentials :: sourceArgs rest firstIndex
    else if firstIndex then
      "--index-url" :: s.urlWithCredentials :: sourceArgs rest false
    else
      "--extra-index-url" :: s.urlWithCredentials :: sourceArgs rest false

/-- Translation of `_build_lock_command` (lines 57–111). -/
def buildLockCommand (cfg : LockConfig) : List String :=
  cfg.uvCmd ++ ["lock", "-p", cfg.interpreter]
    ++ (if cfg.verbosity > 0 then ["--verbose"] else [])
    ++ (if !cfg.enableCache then ["--no-cache"] else [])
    ++ sourceArgs cfg.sources true
    ++ (if cfg.respectSourceOrder then ["--index-strategy=unsafe-first-match"]
        else ["--index-strategy=unsafe-best-match"])
    ++ (if cfg.updateStrategy ≠ "all" then
          cfg.trackedNames.flatMap (fun n => ["-P", n])
        else [])
    ++ (if cfg.allowPrereleases then ["--prerelease=allow"] else [])
    ++ (if ":all:" ∈ cfg.noBinary then ["--no-binary"]
        else cfg.noBinary.flatMap (fun pkg => ["--no-binary-package", pkg]))
    ++ (if ":all:" ∈ cfg.onlyBinary then ["--no-build"]
        else cfg.onlyBinary.flatMap (fun pkg => ["--no-build-package", pkg]))
    ++ (if !cfg.buildIsolation then ["--no-build-isolation"] else [])
    ++ (if cfg.configSettings.isEmpty then []
        else cfg.configSettings.flatMap (fun kv => ["--config-setting", kv.1 ++ "=" ++ kv.2]))
    ++ (if FLAG_DIRECT_MINIMAL_VERSIONS ∈ cfg.strategies then ["--resolution=lowest-direct"]
        else [])
    ++ (match cfg.excludeNewer with
        | some dt => ["--exclude-newer", dt]
        | none => [])

end PdmUv

namespace PdmUv

/-! ### The export command (`Command.handle`) -/

/-- Sort key of the export candidate sort, `lambda c: not c.req.extras`:
true exactly when the requirement carries no extras.  Python sorts `False`
before `True`, so candidates with extras come first. -/
def candNoExtras (c : Candidate) : Bool := c.req.extras.isEmpty

/-- Boolean order on the sort key (`false` before `true`), as the comparator
of a stable merge sort — the model of Python's stable `sorted`. -/
def candLe (a b : Candidate) : Bool := !candNoExtras a || candNoExtras b

/-- Translation of the `sorted(..., key=lambda c: not c.req.extras)` call
(lines 103–109). -/
def sortCandidates (cands : List Candidate) : List Candidate :=
  cands.mergeSort candLe

/-- Translation of the marker-clearing step inside the loop (lines 121–122):
with markers disabled, a candidate whose requirement carries a marker has it
cleared. -/
def applyMarkerStrip (markers : Bool) (c : Candidate) : Candidate :=
  if !markers && c.req.marker.isSome then { c with req := { c.req with marker := none } }
  else c

/-- Translation of `key = candidate.req.key or ""`. -/
def candKeyOrEmpty (c : Candidate) : String := c.req.key.getD ""

/-- Translation of the filtering loop (lines 110–123), with the
`seen_extras` set threaded explicitly: with extras kept, an entry carrying
extras records its key and survives, while a base entry whose key was already
recorded is dropped; with extras stripped, every entry carrying extras is
dropped; every kept entry then passes the marker-clearing step. -/
def filterCandidates (extras markers : Bool) :
    List Candidate → List String → List Candidate
  | [], _ => []
  | c :: rest, seenExtras =>
    if extras then
      let key := candKeyOrEmpty c
      if !c.req.extras.isEmpty then
        applyMarkerStrip markers c :: filterCandidates extras markers rest (key :: seenExtras)
      else if key ∈ seenExtras then
        filterCandidates extras markers rest seenExtras
      else
        applyMarkerStrip markers c :: filterCandidates extras markers rest seenExtras
    else if !c.req.extras.isEmpty then
      filterCandidates extras markers rest seenExtras
    else
      applyMarkerStrip markers c :: filterCandidates extras markers rest seenExtras

/-- The lock-derived branch of `Command.handle`: sort the evaluated
candidates, then run the filtering loop with an empty `seen_extras` set. -/
def exportLockCandidates (extras markers : Bool) (cands : List Candidate) :
    List Candidate :=
  filterCandidates extras markers (sortCandidates cands) []

/-- Options of the export command that the modelled branch reads. -/
structure ExportOptions where
  formatPylock : Bool
  hashes : Bool
  markers : Bool
  extras : Bool
  pyproject : Bool
deriving Repr, DecidableEq

/-- Usage error surfaced to the operator (`PdmUsageError`). -/
structure PdmUsageError where
  message : String
deriving Repr, DecidableEq

/-- Outcome of `Command.handle` short of serialisation: the pylock branch
returns early; the pyproject branch exports plain requirements; the
lock-derived branch exports filtered candidates.  Each data branch records
the effective hashes option handed to the serializer. -/
inductive ExportOutcome where
  | pylock : ExportOutcome
  | fromPyproject (reqs : List Requirement) (hashes : Bool) : ExportOutcome
  | fromLock (packages : List Candidate) (hashes : Bool) : ExportOutcome
deriving Repr, DecidableEq

/-- Translation of `Command.handle` (lines 69–125) up to serialisation: the
pylock format returns early; otherwise the pyproject option forces hashes
off; the pyproject branch reads the project declarations; the lock branch
first checks that a lock file exists and that its strategy records
`inherit_metadata`, then sorts and filters the evaluated candidates. -/
def exportHandle (opts : ExportOptions) (lockExists : Bool)
    (lockStrategy : List String) (lockedCandidates : List Candidate)
    (pyprojectReqs : List Requirement) : Except PdmUsageError ExportOutcome :=
  if opts.formatPylock then .ok .pylock
  else
    let effHashes := if opts.pyproject then false else opts.hashes
    if opts.pyproject then .ok (.fromPyproject pyprojectReqs effHashes)
    else if !lockExists then
      .error ⟨"No lockfile found, please run `pdm lock` first."⟩
    else if FLAG_INHERIT_METADATA ∉ lockStrategy then
      .error ⟨"Can't export a lock file without environment markers, please re-generate the lock file with `inherit_metadata` strategy."⟩
    else
      .ok (.fromLock (exportLockCandidates opts.extras opts.markers lockedCandidates)
        effHashes)

end PdmUv

namespace PdmUv

/-! ### Concrete instances used by witnesses and counterexamples -/

/-- Locked base candidate `pkg==1.0` without extras. -/
def cBase : Candidate :=
  { req := { name := some "pkg", specifier := some "==1.0" }, name := "pkg", version := "1.0" }

/-- Locked extras candidate `pkg[foo]==1.0`. -/
def cExtra : Candidate :=
  { req := { name := some "pkg", specifier := some "==1.0", extras := ["foo"] },
    name := "pkg", version := "1.0" }

/-- Lock record for the project's own package with a virtual source. -/
def vPkgVirtual : UvPackage :=
  { name := "proj", version := "1.0", source := { virtual := some "." } }

/-- Lock record for the project's own package with a registry source. -/
def vPkgPlain : UvPackage := { name := "proj", version := "1.0" }

/-- Lock record whose git source string lacks the trailing revision fragment. -/
def pkgNoRev : UvPackage :=
  { name := "repo", version := "1.0",
    source := { git := some "https://example.com/repo.git?rev=main" } }

/-- Lock record with one extra group `foo` depending on `bar` 2.0. -/
def pkgWithExtras : UvPackage :=
  { name := "pkg", version := "1.0",
    optionalDependencies := [("foo", [{ name := "bar", version := some "2.0" }])] }

/-- Hash cache that never answers. -/
def noCache : String → Option String := fun _ => none

/-- Export options of a plain lock-derived requirements export. -/
def optsLockEx : ExportOptions :=
  { formatPylock := false, hashes := true, markers := true, extras := true, pyproject := false }

/-- Export options of a pyproject export that requested hashes. -/
def optsPyprojEx : ExportOptions :=
  { formatPylock := false, hashes := true, markers := true, extras := true, pyproject := true }

/-- Concrete lock command configuration. -/
def lockCfgEx : LockConfig :=
  { uvCmd := ["uv"], interpreter := "/usr/bin/python3", verbosity := 0, enableCache := true,
    sources := [⟨"https://pypi.org/simple", "index"⟩], respectSourceOrder := false,
    updateStrategy := "all", trackedNames := [], allowPrereleases := false, noBinary := [],
    onlyBinary := [], buildIsolation := true, configSettings := [], strategies := [],
    excludeNewer := none }

end PdmUv

namespace PdmUv

/-! ### Helper lemmas -/

/-- Merge sort of a two-element list compares the pair once. -/
theorem mergeSortPair {α : Type} (le : α → α → Bool) (a b : α) :
    List.mergeSort [a, b] le = if le a b then [a, b] else [b, a] := by
  simp [List.mergeSort, List.merge]

/-- The candidate comparator is transitive. -/
theorem candLe_trans (a b c : Candidate) (h1 : candLe a b = true)
    (h2 : candLe b c = true) : candLe a c = true := by
  revert h1 h2
  cases hA : candNoExtras a <;> cases hB : candNoExtras b <;> cases hC : candNoExtras c <;>
    simp [candLe, hA, hB, hC]

/-- The candidate comparator is total. -/
theorem candLe_total (a b : Candidate) : (candLe a b || candLe b a) = true := by
  cases hA : candNoExtras a <;> cases hB : candNoExtras b <;> simp [candLe, hA, hB]

/-- C1: in lock-derived export, for any pair of locked entries with the same
package key, one without extras (base) and one with extras, the export filter
keeps only the extras entry when extras are kept, and only the base entry
when extras are stripped (each kept entry passing the independent
marker-clearing step). -/
theorem c1_export_dedup_pair (c1 c2 : Candidate) (m : Bool) (l : List Candidate)
    (h1 : c1.req.extras = []) (h2 : c2.req.extras ≠ [])
    (hkey : c1.req.key = c2.req.key)
    (hl : l = [c1, c2] ∨ l = [c2, c1]) :
    exportLockCandidates true m l = [applyMarkerStrip m c2] ∧
    exportLockCandidates false m l = [applyMarkerStrip m c1] := by
  have h1e : c1.req.extras.isEmpty = true := by simp [h1]
  have h2e : c2.req.extras.isEmpty = false := by
    simp [List.isEmpty_iff]
    exact h2
  have hsort : sortCandidates l = [c2, c1] := by
    rcases hl with rfl | rfl <;>
      rw [sortCandidates, mergeSortPair] <;>
      simp [candLe, candNoExtras, h1e, h2e]
  refine ⟨?_, ?_⟩ <;> rw [exportLockCandidates, hsort] <;>
    simp [filterCandidates, h1e, h2e, candKeyOrEmpty, hkey]

/-- Closed witness of `c1_export_dedup_pair` at `pkg==1.0` and
`pkg[foo]==1.0`. -/
theorem c1_export_dedup_pair_witness :
    exportLockCandidates true true [cBase, cExtra] = [applyMarkerStrip true cExtra] ∧
    exportLockCandidates false true [cBase, cExtra] = [applyMarkerStrip true cBase] :=
  c1_export_dedup_pair cBase cExtra true [cBase, cExtra] (by decide) (by decide)
    (by decide) (Or.inl rfl)

/-- C2 counterexample: sorting the pair base-then-extras moves the extras
candidate to the front, so base candidates do not precede extras candidates. -/
theorem c2_sort_counterexample :
    sortCandidates [cBase, cExtra] = [cExtra, cBase] ∧
    cBase.req.extras = [] ∧ cExtra.req.extras = ["foo"] := by
  refine ⟨?_, rfl, rfl⟩
  rw [sortCandidates, mergeSortPair]
  simp [candLe, candNoExtras, cBase, cExtra]

/-- C2 amended: before export deduplication the candidates are sorted so that
candidates whose requirement has extras precede the base candidates — the
key "has no extras" sorts last (Python's `False` sorts before `True`). -/
theorem c2_sort_extras_before_base (cs : List Candidate) :
    (sortCandidates cs).Pairwise
      (fun a b => candNoExtras a = true → candNoExtras b = true) := by
  have h := List.sorted_mergeSort candLe_trans candLe_total cs
  rw [sortCandidates]
  refine h.imp ?_
  intro a b hab ha
  cases hb : candNoExtras b
  · simp [candLe, ha, hb] at hab
  · rfl

end PdmUv

namespace PdmUv

/-- Successful bind over `Except` factors through a successful first step. -/
theorem exceptBindOk {ε α β : Type} {x : Except ε α} {f : α → Except ε β} {v : β}
    (h : (x >>= f) = .ok v) : ∃ a, x = .ok a ∧ f a = .ok v := by
  cases x with
  | error e => exact absurd h (by simp [Bind.bind, Except.bind])
  | ok a => exact ⟨a, rfl, by simpa [Bind.bind, Except.bind] using h⟩

/-- C3 counterexample: a record for the project's own package whose source is
virtual is skipped by the parser even though self-inclusion was requested —
the claim says this is the one case where it is kept. -/
theorem c3_skip_counterexample :
    parseUvLock (some "proj") true noCache [vPkgVirtual] [] = .ok ⟨[], []⟩ ∧
    pyTruthy vPkgVirtual.source.virtual = true := ⟨rfl, rfl⟩

/-- C3 amended: a package record whose name equals the normalized project
name is skipped, unless self-inclusion was explicitly requested and its
source is not virtual/self, in which case it is parsed like any other
record; a virtual/self record is skipped even when self-inclusion was
requested. -/
theorem c3_self_skip (pn : String) (ks : Bool) (cache : String → Option String)
    (pkg : UvPackage) (gs : List String)
    (hpn : pyTruthy (some pn) = true) (hname : pkg.name = normalizeName pn) :
    (¬(ks = true ∧ pyTruthy pkg.source.virtual = false) →
      parseUvLock (some pn) ks cache [pkg] gs = .ok ⟨[], gs⟩) ∧
    ((ks = true ∧ pyTruthy pkg.source.virtual = false) →
      parseUvLock (some pn) ks cache [pkg] gs = parseUvLock none ks cache [pkg] gs) := by
  have hne : pn.isEmpty = false := by simpa [pyTruthy] using hpn
  have hskip : skipRecord (some pn) ks pkg = (!ks || pyTruthy pkg.source.virtual) := by
    simp [skipRecord, pyTruthy, hne, hname]
  constructor
  · intro hcond
    have hs : skipRecord (some pn) ks pkg = true := by
      rw [hskip]
      cases hks : ks <;> cases hv : pyTruthy pkg.source.virtual <;> simp_all
    simp [parseUvLock, parsePackages, hs, Bind.bind, Except.bind]
  · rintro ⟨hks, hv⟩
    have hs : skipRecord (some pn) ks pkg = false := by rw [hskip, hks, hv]; rfl
    have hs2 : skipRecord none ks pkg = false := by simp [skipRecord, pyTruthy]
    simp [parseUvLock, parsePackages, hs, hs2]

/-- Closed witness of `c3_self_skip`: with self-inclusion requested, a
non-virtual record of the project's own package is kept and parsed
normally. -/
theorem c3_self_skip_witness :
    (¬(true = true ∧ pyTruthy vPkgPlain.source.virtual = false) →
      parseUvLock (some "proj") true noCache [vPkgPlain] [] = .ok ⟨[], []⟩) ∧
    ((true = true ∧ pyTruthy vPkgPlain.source.virtual = false) →
      parseUvLock (some "proj") true noCache [vPkgPlain] [] =
        parseUvLock none true noCache [vPkgPlain] []) :=
  c3_self_skip "proj" true noCache vPkgPlain [] rfl (by decide)

/-- C4 counterexample: on the input carrying the `git+` scheme marker the
parser duplicates the marker — the resulting repo URL is
`git+git+https://example.com/repo.git`, not the claimed
`git+https://example.com/repo.git`. -/
theorem c4_git_counterexample :
    parseGitSource "git+https://example.com/repo.git?rev=main#abcdef1234567890" "repo" =
      .ok { name := some "repo", url := some "git+git+https://example.com/repo.git",
            vcs := true, ref := some "main", revision := some "abcdef1234567890" } ∧
    (some "git+git+https://example.com/repo.git" : Option String) ≠
      some "git+https://example.com/repo.git" := ⟨rfl, by decide⟩

/-- C4 amended: parsing the git source string
`https://example.com/repo.git?rev=main#abcdef1234567890` — the form stored in
the lock document, without a `git+` marker — yields a VCS requirement with
repo URL `git+https://example.com/repo.git`, ref `main` and resolved revision
`abcdef1234567890`; a git source lacking the trailing hexadecimal revision
fragment makes the whole parse fail with a format error, returning no partial
resolution. -/
theorem c4_git_parse :
    parseGitSource "https://example.com/repo.git?rev=main#abcdef1234567890" "repo" =
      .ok { name := some "repo", url := some "git+https://example.com/repo.git",
            vcs := true, ref := some "main", revision := some "abcdef1234567890" } ∧
    parseUvLock none false noCache [pkgNoRev] [] =
      .error "Invalid git URL: https://example.com/repo.git?rev=main" := ⟨rfl, rfl⟩

end PdmUv

namespace PdmUv

/-- C5: every parsed package record that declares extra groups yields the
base entry first, followed by exactly one synthetic entry per extra group in
order; each synthetic entry's candidate is the base candidate copied with
that extra attached, and its dependency list starts with the exact pin of the
base package at the base entry's version, followed by the group's own
dependencies; in particular every synthetic entry keeps the base entry's
version. -/
theorem c5_extras_entries (cache : String → Option String) (pkg : UvPackage)
    (entries : List Package) (h : parsePackage cache pkg = .ok entries) :
    ∃ base rest, entries = base :: rest ∧
      rest = pkg.optionalDependencies.map (fun gd =>
        ⟨base.candidate.copyWith { base.candidate.req with extras := [gd.1] },
         (base.candidate.req.keyStr ++ "==" ++ base.candidate.version) ::
           gd.2.map makeRequirement, ""⟩) ∧
      ∀ e ∈ rest, e.candidate.version = base.candidate.version := by
  rw [parsePackage] at h
  obtain ⟨req, hreq, h⟩ := exceptBindOk h
  obtain ⟨hashes, hh, h⟩ := exceptBindOk h
  have hentries : entries =
      (⟨⟨req, pkg.name, pkg.version, hashes⟩, pkg.dependencies.map makeRequirement, ""⟩ : Package)
        :: pkg.optionalDependencies.map (fun gd =>
          ⟨Candidate.copyWith ⟨req, pkg.name, pkg.version, hashes⟩ { req with extras := [gd.1] },
           (req.keyStr ++ "==" ++ pkg.version) :: gd.2.map makeRequirement, ""⟩) := by
    exact (Except.ok.injEq _ _ ▸ congrArg id h).symm ▸ (Except.ok.inj h).symm
  refine ⟨_, _, hentries, rfl, ?_⟩
  intro e he
  simp only [List.mem_map] at he
  obtain ⟨gd, _, rfl⟩ := he
  rfl

/-- Closed witness of `c5_extras_entries` at the spec's example: `pkg==1.0`
with one extra group `foo` depending on `bar` 2.0. -/
theorem c5_extras_entries_witness :
    ∃ base rest,
      ([⟨⟨{ name := some "pkg", specifier := some "==1.0" }, "pkg", "1.0", []⟩, [], ""⟩,
        ⟨⟨{ name := some "pkg", specifier := some "==1.0", extras := ["foo"] }, "pkg", "1.0", []⟩,
         ["pkg==1.0", "bar==2.0"], ""⟩] : List Package) = base :: rest ∧
      rest = pkgWithExtras.optionalDependencies.map (fun gd =>
        ⟨base.candidate.copyWith { base.candidate.req with extras := [gd.1] },
         (base.candidate.req.keyStr ++ "==" ++ base.candidate.version) ::
           gd.2.map makeRequirement, ""⟩) ∧
      ∀ e ∈ rest, e.candidate.version = base.candidate.version :=
  c5_extras_entries noCache pkgWithExtras _ rfl

/-- C6: the lock-derived export fails with a usage error whenever the lock
file does not exist or its recorded strategy lacks the `inherit_metadata`
flag, and in that case the outcome does not depend on the locked candidates —
no filtering runs and no output is produced. -/
theorem c6_export_preconditions (opts : ExportOptions) (lockExists : Bool)
    (strategy : List String) (cands : List Candidate) (reqs : List Requirement)
    (hfmt : opts.formatPylock = false) (hpy : opts.pyproject = false)
    (hfail : lockExists = false ∨ FLAG_INHERIT_METADATA ∉ strategy) :
    (∃ e, exportHandle opts lockExists strategy cands reqs = .error e) ∧
    (∀ cands', exportHandle opts lockExists strategy cands reqs =
      exportHandle opts lockExists strategy cands' reqs) := by
  rcases hfail with hlock | hstrat
  · subst hlock
    refine ⟨⟨⟨"No lockfile found, please run `pdm lock` first."⟩, ?_⟩, fun cands' => ?_⟩ <;>
      simp [exportHandle, hfmt, hpy]
  · rcases hlock : lockExists
    · refine ⟨⟨⟨"No lockfile found, please run `pdm lock` first."⟩, ?_⟩, fun cands' => ?_⟩ <;>
        simp [exportHandle, hfmt, hpy]
    · refine ⟨⟨⟨"Can't export a lock file without environment markers, please re-generate the lock file with `inherit_metadata` strategy."⟩, ?_⟩, fun cands' => ?_⟩ <;>
        simp [exportHandle, hfmt, hpy, hstrat]

/-- Closed witness of `c6_export_preconditions`: exporting with no lock file
present fails before filtering. -/
theorem c6_export_preconditions_witness :
    (∃ e, exportHandle optsLockEx false ["inherit_metadata"] [cBase] [] = .error e) ∧
    (∀ cands', exportHandle optsLockEx false ["inherit_metadata"] [cBase] [] =
      exportHandle optsLockEx false ["inherit_metadata"] cands' []) :=
  c6_export_preconditions optsLockEx false ["inherit_metadata"] [cBase] [] rfl rfl
    (Or.inl rfl)

/-- C7: the lock command builder is deterministic — identical project
configurations produce identical argument sequences. -/
theorem c7_build_command_deterministic (cfg1 cfg2 : LockConfig) (h : cfg1 = cfg2) :
    buildLockCommand cfg1 = buildLockCommand cfg2 := by rw [h]

/-- Closed witness of `c7_build_command_deterministic` at a concrete
configuration. -/
theorem c7_build_command_deterministic_witness :
    buildLockCommand lockCfgEx = buildLockCommand lockCfgEx :=
  c7_build_command_deterministic lockCfgEx lockCfgEx rfl

/-- C8 counterexample: on a concrete configuration the first element of the
built argument list is the uv command, not the interpreter path. -/
theorem c8_first_element_counterexample :
    (buildLockCommand lockCfgEx).head? = some "uv" ∧
    lockCfgEx.interpreter = "/usr/bin/python3" ∧
    (buildLockCommand lockCfgEx).head? ≠ some lockCfgEx.interpreter := by decide

/-- C8 amended: for every configuration the argument list starts with the uv
command, followed by the `lock` subcommand and the `-p` flag whose argument
is the interpreter path. -/
theorem c8_command_head (cfg : LockConfig) :
    ∃ rest, buildLockCommand cfg =
      cfg.uvCmd ++ "lock" :: "-p" :: cfg.interpreter :: rest := by
  simp only [buildLockCommand, List.append_assoc]
  exact ⟨_, rfl⟩

/-- C9: after resolver construction the update strategy is `reuse` or `all`
(anything else falls back to `reuse`) and the `inherit_metadata` flag is no
longer in the strategy set, for every input configuration. -/
theorem c9_post_init_invariants (us : String) (st : List String) :
    ((postInit us st).1 = "reuse" ∨ (postInit us st).1 = "all") ∧
    (¬(us = "reuse" ∨ us = "all") → (postInit us st).1 = "reuse") ∧
    FLAG_INHERIT_METADATA ∉ (postInit us st).2 := by
  refine ⟨?_, ?_, ?_⟩
  · by_cases h : us = "reuse" ∨ us = "all"
    · rcases h with h | h <;> simp [postInit, h]
    · simp [postInit, h]
  · intro h
    simp [postInit, h]
  · by_cases h : FLAG_INHERIT_METADATA ∈ st
    · simp only [postInit, if_pos h]
      intro hmem
      have h2 := (List.mem_filter.mp hmem).2
      simp at h2
    · simp only [postInit, if_neg h]
      exact h

/-- Closed witness of `c9_post_init_invariants` at an unsupported strategy
with the `inherit_metadata` flag requested. -/
theorem c9_post_init_invariants_witness :
    ((postInit "eager" ["inherit_metadata"]).1 = "reuse" ∨
      (postInit "eager" ["inherit_metadata"]).1 = "all") ∧
    (¬("eager" = "reuse" ∨ "eager" = "all") →
      (postInit "eager" ["inherit_metadata"]).1 = "reuse") ∧
    FLAG_INHERIT_METADATA ∉ (postInit "eager" ["inherit_metadata"]).2 :=
  c9_post_init_invariants "eager" ["inherit_metadata"]

/-- C10: in declared-only (pyproject) export mode — reached when the format
is not pylock — the effective hashes option handed to the serializer is
false, whatever the user requested. -/
theorem c10_pyproject_no_hashes (opts : ExportOptions) (lockExists : Bool)
    (strategy : List String) (cands : List Candidate) (reqs : List Requirement)
    (hfmt : opts.formatPylock = false) (hpy : opts.pyproject = true) :
    exportHandle opts lockExists strategy cands reqs = .ok (.fromPyproject reqs false) := by
  simp [exportHandle, hfmt, hpy]

/-- Closed witness of `c10_pyproject_no_hashes` where the user requested
hashes. -/
theorem c10_pyproject_no_hashes_witness :
    exportHandle optsPyprojEx true ["inherit_metadata"] [cBase] [] =
      .ok (.fromPyproject [] false) :=
  c10_pyproject_no_hashes optsPyprojEx true ["inherit_metadata"] [cBase] [] rfl rfl

end PdmUv
